import Mathlib

/-
Verification of the EVcouplings pipeline executor
(`evcouplings/utils/pipeline.py`).

The module is embedded shallowly:
  * Python dictionaries become association lists with last-entry-wins
    lookup (`alookup`), so that the Python merge `{**a, **b}` is list
    concatenation `a ++ b`.
  * The heterogeneous keyword-argument mapping passed to `execute`
    becomes `Kwargs`, whose values (`TopVal`) are strings, string lists,
    `None`, or flat configuration sections (`CfgDict` over scalar `SVal`).
  * The filesystem visible to the executor becomes `FS`, a mapping from
    paths to file entries (missing / empty / opaque data / parsed
    configuration record); directory creation and config-record writes
    are logged as an explicit `Effect` trace.
  * Exceptions become the `Err` type carried in an `Outcome`.
  * The stage callables (`ap.run`, `cp.run`, ...) are external
    collaborators; they are modelled as an abstract `Runners` record of
    total functions from input configuration to output configuration.
Helpers that live outside this file's source (`check_required`,
`verify_resources`, `insert_dir`, `create_prefix_folders`) are modelled
from the specification, as marked on their doc comments.
-/

set_option maxHeartbeats 1600000

namespace EVP

/-- Scalar values stored inside configuration sections, stage outputs
and the global state (strings / paths, and integers standing for any
other scalar payload). -/
inductive SVal where
  | str : String → SVal
  | int : Int → SVal
deriving DecidableEq, Repr

/-- A flat configuration dictionary (a Python `dict` of scalars),
represented as an association list; merging two dicts is concatenation,
with entries further to the right taking priority (`alookup`). -/
abbrev CfgDict := List (String × SVal)

/-- Values of the top-level keyword-argument mapping given to `execute`:
the pipeline name, the requested stage list (or `None`), and nested
sections such as `global`, `tools`, `databases` and per-stage settings. -/
inductive TopVal where
  | str : String → TopVal
  | strList : List String → TopVal
  | noneV : TopVal
  | sec : CfgDict → TopVal
deriving DecidableEq, Repr

/-- The `**kwargs` mapping received by `execute`. -/
abbrev Kwargs := List (String × TopVal)

/-- Dictionary lookup with Python semantics on our association lists:
the entry added last (furthest right) wins. -/
def alookup {α : Type} : List (String × α) → String → Option α
  | [], _ => none
  | (k, v) :: rest, key =>
    match alookup rest key with
    | some w => some w
    | none => if k = key then some v else none

/-- Python `key in dict`. -/
def hasKey {α : Type} (d : List (String × α)) (k : String) : Bool :=
  (alookup d k).isSome

/-- The exceptions `execute` can raise: the library's
`MissingParameterError`, `InvalidParameterError` and `ResourceError`
(the spec's `MissingParameter` / `InvalidParameter` / `MissingResource`),
plus the plain Python `KeyError` / `TypeError` escaping from unguarded
dictionary subscripts, and a parse failure from `read_config_file`. -/
inductive Err where
  | missingParameter : String → Err
  | invalidParameter : String → Err
  | missingResource : String → Err
  | keyError : String → Err
  | typeError : String → Err
  | parseError : String → Err
deriving DecidableEq, Repr

/-- A file visible to the executor: empty, opaque non-config data, or a
configuration record readable by `read_config_file`. -/
inductive Entry where
  | emptyFile : Entry
  | dataFile : Entry
  | configFile : CfgDict → Entry
deriving DecidableEq, Repr

/-- The filesystem state: association of paths to entries, written
entries appended on the right (last write wins). -/
abbrev FS := List (String × Entry)

def fsLookup (fs : FS) (p : String) : Option Entry := alookup fs p

/-- `write_config_file(path, d)` effect on the filesystem. -/
def fsWrite (fs : FS) (p : String) (d : CfgDict) : FS :=
  fs ++ [(p, Entry.configFile d)]

/-- A path passes resource verification when it exists and is
non-empty. -/
def resourceOk (fs : FS) (p : String) : Bool :=
  match fsLookup fs p with
  | some Entry.emptyFile => false
  | some _ => true
  | none => false

/-- A stage-output value passes verification when it is a path string
whose file exists and is non-empty (any non-path value fails, as the
underlying filesystem check would). -/
def svalOk (fs : FS) : SVal → Bool
  | SVal.str p => resourceOk fs p
  | _ => false

/-- Modelled from the spec: `verify_resources(message, *paths)` fails
with `MissingResource` (carrying the caller's message) if any path is
missing or empty, and succeeds silently otherwise. -/
def verify_resources (fs : FS) (msg : String) (paths : List SVal) : Option Err :=
  if paths.all (svalOk fs) then none else some (Err.missingResource msg)

/-- `read_config_file(path)`: parse the record at `path`. -/
def readConfig (fs : FS) (p : String) : Option CfgDict :=
  match fsLookup fs p with
  | some (Entry.configFile d) => some d
  | _ => none

/-- Modelled from the spec: `check_required(mapping, keys)` fails with
`MissingParameter` naming the first absent key. -/
def check_required (kw : Kwargs) : List String → Option Err
  | [] => none
  | k :: rest =>
    if hasKey kw k then check_required kw rest
    else some (Err.missingParameter ("Missing required parameter: " ++ k))

/-- Modelled from the spec: `insert_dir(prefix, stage)` derives the
per-stage output location nested under the run prefix. -/
def insert_dir (pref stage : String) : String :=
  pref ++ "/" ++ stage

/-- Side effects performed by the executor: `create_prefix_folders`
(directory creation for a path prefix) and `write_config_file`. -/
inductive Effect where
  | mkdirFor : String → Effect
  | writeFile : String → CfgDict → Effect
deriving DecidableEq, Repr

/-- Result of a run: either the final global state or the exception that
aborted it. -/
inductive Outcome where
  | ok : CfgDict → Outcome
  | err : Err → Outcome
deriving DecidableEq, Repr

/-- What an invocation of `execute` produced: the filesystem after all
writes, the ordered trace of side effects, and the outcome. -/
structure RunResult where
  fs : FS
  effects : List Effect
  outcome : Outcome
deriving DecidableEq, Repr

/-- The stage-runner callables referenced by `PIPELINES`
(`ap.run`, `cp.run`, `cm.run`, `mt.run`, `fd.run`, `pp.run`); external
collaborators, kept abstract. -/
structure Runners where
  apRun : CfgDict → CfgDict
  cpRun : CfgDict → CfgDict
  cmRun : CfgDict → CfgDict
  mtRun : CfgDict → CfgDict
  fdRun : CfgDict → CfgDict
  ppRun : CfgDict → CfgDict

/-- A stage descriptor: name, runner, optional output-key prefix. -/
abbrev StageDesc := String × (CfgDict → CfgDict) × Option String

/-- The static pipeline registry (`PIPELINES` in the source),
parameterised by the runner implementations. -/
def PIPELINES (R : Runners) : List (String × List StageDesc) :=
  [("protein_monomer",
     [("align", R.apRun, none),
      ("couplings", R.cpRun, none),
      ("compare", R.cmRun, none),
      ("mutate", R.mtRun, none),
      ("fold", R.fdRun, none)]),
   ("protein_complex",
     [("align_1", R.apRun, some "first_"),
      ("align_2", R.apRun, some "second_"),
      ("concatenate", R.ppRun, none),
      ("couplings", R.cpRun, none)])]

def plookup (R : Runners) (name : String) : Option (List StageDesc) :=
  alookup (PIPELINES R) name

def FINAL_CONFIG_SUFFIX : String := "_final.outcfg"

/-- Message of the invalid-pipeline error, listing every registered
pipeline name. -/
def invalidPipelineMsg (R : Runners) : String :=
  "Not a valid pipeline selection. Valid choices are:\n" ++
    String.intercalate ", " ((PIPELINES R).map Prod.fst)

def noStagesMsg : String := "No stages defined, need at least one."

/-- Message of the missing-checkpoint error on the skip path, naming the
stage. -/
def skipMsg (stage : String) : String :=
  "Trying to skip, but output configuration for stage '" ++ stage ++
    "' does not exist. Has it already been run?"

/-- Message of the missing-output-file error on the skip path, naming
the stage. -/
def filesMsg (stage : String) : String :=
  "Output files from stage '" ++ stage ++ "' missing"

/-- Resolve `kwargs["pipeline"]` against the registry: the source raises
`InvalidParameterError` when the value is not a key of `PIPELINES`
(a non-hashable value would raise `TypeError` from the membership
test). -/
def pipelineFor (R : Runners) (pv : TopVal) : Except Err (List StageDesc) :=
  match pv with
  | TopVal.str name =>
    match plookup R name with
    | some pl => Except.ok pl
    | none => Except.error (Err.invalidParameter (invalidPipelineMsg R))
  | TopVal.noneV => Except.error (Err.invalidParameter (invalidPipelineMsg R))
  | _ => Except.error (Err.typeError "pipeline")

/-- Subscript a section out of the keyword mapping
(`kwargs[k]` expected to be a mapping): `KeyError` when absent,
`TypeError` when not a mapping. -/
def getSec (kw : Kwargs) (k : String) : Except Err CfgDict :=
  match alookup kw k with
  | none => Except.error (Err.keyError k)
  | some (TopVal.sec s) => Except.ok s
  | some _ => Except.error (Err.typeError k)

/-- The layered stage input configuration built for an executed stage
(source line 132): `{**kwargs["tools"], **kwargs["databases"],
**kwargs[stage], **global_state, "prefix": stage_prefix}`. -/
def layeredInput (tools dbs scfg gs : CfgDict) (stageDir : String) : CfgDict :=
  tools ++ dbs ++ scfg ++ gs ++ [("prefix", SVal.str stageDir)]

/-- Key-prefixing of a stage's output (source lines 148-151). -/
def applyKeyPref : Option String → CfgDict → CfgDict
  | none, oc => oc
  | some kp, oc => oc.map (fun q => (kp ++ q.1, q.2))

/-- Python `str.endswith`, evaluated on the underlying character
lists. -/
def endsWithF (s t : String) : Bool :=
  t.data.isSuffixOf s.data

/-- The values of output entries whose key ends in `_file`
(source lines 171-174). -/
def outputFiles (oc : CfgDict) : List SVal :=
  (oc.filter (fun q => endsWithF q.1 "_file")).map Prod.snd

/-- Path of a stage's input-config record,
`"{}_{}.incfg".format(stage_prefix, stage)`. -/
def inPathOf (pref stage : String) : String :=
  insert_dir pref stage ++ "_" ++ stage ++ ".incfg"

/-- Path of a stage's output-config record,
`"{}_{}.outcfg".format(stage_prefix, stage)`. -/
def outPathOf (pref stage : String) : String :=
  insert_dir pref stage ++ "_" ++ stage ++ ".outcfg"

/-- The stage loop of `execute` (source lines 111-183): walks the
pipeline definition while requested stages remain, executing requested
stages and resuming the others from their persisted output records. -/
def runLoop (R : Runners) (kw : Kwargs) (stages : List String) (pref : String) :
    List StageDesc → Nat → CfgDict → FS → List Effect → RunResult
  | [], _, gs, fs, eff => ⟨fs, eff, Outcome.ok gs⟩
  | (stage, runner, keyPref) :: rest, n, gs, fs, eff =>
    if n = 0 then ⟨fs, eff, Outcome.ok gs⟩
    else
      match check_required kw [stage] with
      | some e => ⟨fs, eff, Outcome.err e⟩
      | none =>
        let stageDir := insert_dir pref stage
        let eff1 := eff ++ [Effect.mkdirFor stageDir]
        let inPath := inPathOf pref stage
        let outPath := outPathOf pref stage
        if stages.contains stage then
          match getSec kw "tools" with
          | Except.error e => ⟨fs, eff1, Outcome.err e⟩
          | Except.ok tools =>
          match getSec kw "databases" with
          | Except.error e => ⟨fs, eff1, Outcome.err e⟩
          | Except.ok dbs =>
          match getSec kw stage with
          | Except.error e => ⟨fs, eff1, Outcome.err e⟩
          | Except.ok scfg =>
            let incfg := layeredInput tools dbs scfg gs stageDir
            let fs1 := fsWrite fs inPath incfg
            let eff2 := eff1 ++ [Effect.writeFile inPath incfg]
            let outcfg := applyKeyPref keyPref (runner incfg)
            let fs2 := fsWrite fs1 outPath outcfg
            let eff3 := eff2 ++ [Effect.writeFile outPath outcfg]
            runLoop R kw stages pref rest (n - 1) (gs ++ outcfg) fs2 eff3
        else
          match verify_resources fs (skipMsg stage) [SVal.str outPath] with
          | some e => ⟨fs, eff1, Outcome.err e⟩
          | none =>
          match readConfig fs outPath with
          | none => ⟨fs, eff1, Outcome.err (Err.parseError outPath)⟩
          | some outcfg =>
          match verify_resources fs (filesMsg stage) (outputFiles outcfg) with
          | some e => ⟨fs, eff1, Outcome.err e⟩
          | none => runLoop R kw stages pref rest n (gs ++ outcfg) fs eff1

/-- After the loop: write the final global state record
(source lines 185-190); on an error the result is passed through
unchanged. -/
def finalize (pref : String) (r : RunResult) : RunResult :=
  match r.outcome with
  | Outcome.err _ => r
  | Outcome.ok gsf =>
    ⟨fsWrite r.fs (pref ++ FINAL_CONFIG_SUFFIX) gsf,
     r.effects ++ [Effect.writeFile (pref ++ FINAL_CONFIG_SUFFIX) gsf],
     Outcome.ok gsf⟩

/-- The pipeline executor `execute(**kwargs)` (source lines 56-190),
acting on an initial filesystem `fs`. -/
def execute (R : Runners) (kw : Kwargs) (fs : FS) : RunResult :=
  match check_required kw ["pipeline", "stages", "global"] with
  | some e => ⟨fs, [], Outcome.err e⟩
  | none =>
  match alookup kw "pipeline" with
  | none => ⟨fs, [], Outcome.err (Err.keyError "pipeline")⟩
  | some pv =>
  match pipelineFor R pv with
  | Except.error e => ⟨fs, [], Outcome.err e⟩
  | Except.ok pl =>
  match alookup kw "stages" with
  | none => ⟨fs, [], Outcome.err (Err.keyError "stages")⟩
  | some TopVal.noneV => ⟨fs, [], Outcome.err (Err.invalidParameter noStagesMsg)⟩
  | some (TopVal.strList stages) =>
    (match getSec kw "global" with
     | Except.error e => ⟨fs, [], Outcome.err e⟩
     | Except.ok gsec =>
     match alookup gsec "prefix" with
     | none => ⟨fs, [], Outcome.err (Err.keyError "prefix")⟩
     | some (SVal.int _) => ⟨fs, [], Outcome.err (Err.typeError "prefix")⟩
     | some (SVal.str pref) =>
       finalize pref
         (runLoop R kw stages pref pl stages.length gsec fs
           [Effect.mkdirFor pref]))
  | some _ => ⟨fs, [], Outcome.err (Err.typeError "stages")⟩

/-- Classifier for outcomes that are a `MissingParameter` failure. -/
def isMissingParam : Outcome → Bool
  | Outcome.err (Err.missingParameter _) => true
  | _ => false

/-- Classifier for outcomes that are an `InvalidParameter` failure. -/
def isInvalidParam : Outcome → Bool
  | Outcome.err (Err.invalidParameter _) => true
  | _ => false

/-! ### Concrete fixtures for witnesses and counterexamples -/

/-- Concrete stage runners used to evaluate the executor on closed
inputs. -/
def R0 : Runners :=
  ⟨fun _ => [("alignment_file", SVal.str "af")],
   fun _ => [("model_file", SVal.str "mf")],
   fun _ => [("pdb_file", SVal.str "pf")],
   fun _ => [("mutation_file", SVal.str "uf")],
   fun _ => [("fold_file", SVal.str "ff")],
   fun _ => [("concat_file", SVal.str "cf")]⟩

def gsec0 : CfgDict := [("prefix", SVal.str "out/run"), ("theta", SVal.int 8)]

def tools0 : CfgDict := [("plmc", SVal.str "bin/plmc")]

def dbs0 : CfgDict := [("uniref", SVal.str "db/uniref")]

/-- A well-formed monomer configuration, parameterised by the `stages`
value. -/
def kw0 (stv : TopVal) : Kwargs :=
  [("pipeline", TopVal.str "protein_monomer"),
   ("stages", stv),
   ("global", TopVal.sec gsec0),
   ("tools", TopVal.sec tools0),
   ("databases", TopVal.sec dbs0),
   ("align", TopVal.sec [("seqid", SVal.str "Q")]),
   ("couplings", TopVal.sec [("iters", SVal.int 100)])]

/-- A configuration whose `global` section lacks `prefix`. -/
def kwNoPref : Kwargs :=
  [("pipeline", TopVal.str "protein_monomer"),
   ("stages", TopVal.strList ["align"]),
   ("global", TopVal.sec [("theta", SVal.int 8)]),
   ("tools", TopVal.sec tools0),
   ("databases", TopVal.sec dbs0),
   ("align", TopVal.sec [("seqid", SVal.str "Q")])]

/-- A monomer configuration with no top-level `tools` mapping. -/
def kwNoTools : Kwargs :=
  [("pipeline", TopVal.str "protein_monomer"),
   ("stages", TopVal.strList ["align"]),
   ("global", TopVal.sec gsec0),
   ("align", TopVal.sec [("seqid", SVal.str "Q")])]

/-- A monomer configuration with `tools` but no top-level `databases`
mapping. -/
def kwNoDbs : Kwargs :=
  [("pipeline", TopVal.str "protein_monomer"),
   ("stages", TopVal.strList ["align"]),
   ("global", TopVal.sec gsec0),
   ("tools", TopVal.sec tools0),
   ("align", TopVal.sec [("seqid", SVal.str "Q")])]

/-- A configuration naming an unregistered pipeline. -/
def kwBadPipe : Kwargs :=
  [("pipeline", TopVal.str "protein_trimer"),
   ("stages", TopVal.strList ["align"]),
   ("global", TopVal.sec gsec0),
   ("tools", TopVal.sec tools0),
   ("databases", TopVal.sec dbs0),
   ("align", TopVal.sec [("seqid", SVal.str "Q")])]

/-- Global state used by the C3 witness: collides with the stage
section on `seqid` and carries its own `prefix`. -/
def gsC3 : CfgDict := [("seqid", SVal.str "G"), ("prefix", SVal.str "out/run")]

/-- Global state used by the C5 witness: already holds
`alignment_file`. -/
def gsC5 : CfgDict := [("alignment_file", SVal.str "old")]

/-- Filesystem with the align record on disk and its output file
present (C6 witness success case; also the C7 resume scenario). -/
def fsC6ok : FS :=
  [(outPathOf "out/run" "align",
    Entry.configFile [("alignment_file", SVal.str "af")]),
   ("af", Entry.dataFile)]

/-- Filesystem with the align record on disk but the file it points at
missing (C6 witness broken-artifact case). -/
def fsC6bad : FS :=
  [(outPathOf "out/run" "align",
    Entry.configFile [("alignment_file", SVal.str "gone")])]

/-- Global section used by the complex-pipeline scenario. -/
def gC4 (p : String) : CfgDict := [("prefix", SVal.str p)]

/-- A complex-pipeline configuration requesting the two alignment
stages, with symbolic section contents. -/
def kwC4 (T D S1 S2 : CfgDict) (p : String) : Kwargs :=
  [("pipeline", TopVal.str "protein_complex"),
   ("stages", TopVal.strList ["align_1", "align_2"]),
   ("global", TopVal.sec (gC4 p)),
   ("tools", TopVal.sec T),
   ("databases", TopVal.sec D),
   ("align_1", TopVal.sec S1),
   ("align_2", TopVal.sec S2)]

/-- Raw output of the first alignment stage in the complex scenario. -/
def outC4first (R : Runners) (T D S1 : CfgDict) (p : String) : CfgDict :=
  R.apRun (layeredInput T D S1 (gC4 p) (insert_dir p "align_1"))

/-- Global state after the first alignment stage of the complex
scenario. -/
def gs1C4 (R : Runners) (T D S1 : CfgDict) (p : String) : CfgDict :=
  gC4 p ++ applyKeyPref (some "first_") (outC4first R T D S1 p)

/-- Raw output of the second alignment stage in the complex
scenario. -/
def outC4second (R : Runners) (T D S1 S2 : CfgDict) (p : String) : CfgDict :=
  R.apRun (layeredInput T D S2 (gs1C4 R T D S1 p) (insert_dir p "align_2"))

/-- Global state after both alignment stages of the complex
scenario. -/
def finalC4 (R : Runners) (T D S1 S2 : CfgDict) (p : String) : CfgDict :=
  gs1C4 R T D S1 p ++
    applyKeyPref (some "second_") (outC4second R T D S1 S2 p)

/-! ### Basic facts about strings and association-list dictionaries -/

theorem strExt {a b : String} (h : a.data = b.data) : a = b := by
  cases a; cases b; exact congrArg String.mk h

theorem data_append (a b : String) : (a ++ b).data = a.data ++ b.data := rfl

theorem strAppend_left_cancel {p a b : String} (h : p ++ a = p ++ b) : a = b := by
  have hd := congrArg String.data h
  rw [data_append, data_append] at hd
  exact strExt (List.append_cancel_left hd)

theorem alookup_append_some {α : Type} {b : List (String × α)} {k : String}
    {v : α} (a : List (String × α)) (h : alookup b k = some v) :
    alookup (a ++ b) k = some v := by
  induction a with
  | nil => simpa using h
  | cons p rest ih => simp [alookup, ih]

theorem alookup_append_none {α : Type} {b : List (String × α)} {k : String}
    (a : List (String × α)) (h : alookup b k = none) :
    alookup (a ++ b) k = alookup a k := by
  induction a with
  | nil => simpa using h
  | cons p rest ih => simp [alookup, ih]

theorem alookup_mapPre (pre : String) (l : CfgDict) (k : String) :
    alookup (l.map (fun q => (pre ++ q.1, q.2))) (pre ++ k) = alookup l k := by
  induction l with
  | nil => rfl
  | cons q rest ih =>
    simp only [List.map, alookup, ih]
    cases hrk : alookup rest k with
    | some w => rfl
    | none =>
      by_cases h : q.1 = k
      · subst h; simp
      · rw [if_neg h, if_neg]
        exact fun hc => h (strAppend_left_cancel hc)

theorem alookup_mapPre_none (pre : String) (l : CfgDict) {q : String}
    (h : ∀ x, pre ++ x ≠ q) :
    alookup (l.map (fun p => (pre ++ p.1, p.2))) q = none := by
  induction l with
  | nil => rfl
  | cons p rest ih =>
    simp only [List.map, alookup, ih]
    rw [if_neg (h p.1)]

theorem secondPre_ne_firstPre (x y : String) :
    ("second_" ++ x : String) ≠ "first_" ++ y := by
  intro h
  have hd := congrArg String.data h
  rw [data_append, data_append] at hd
  have h1 : ("second_" : String).data = ['s', 'e', 'c', 'o', 'n', 'd', '_'] := rfl
  have h2 : ("first_" : String).data = ['f', 'i', 'r', 's', 't', '_'] := rfl
  rw [h1, h2] at hd
  simp only [List.cons_append, List.nil_append] at hd
  injection hd with hc _
  exact absurd hc (by decide)

theorem firstPre_ne_secondPre (x y : String) :
    ("first_" ++ x : String) ≠ "second_" ++ y := by
  intro h
  exact secondPre_ne_firstPre y x h.symm

/-- No per-stage checkpoint path collides with the final-record path of
the same run prefix: stage paths continue the prefix with `/`, the final
record with `_`. -/
theorem stagePath_ne_final (p s ext : String) :
    insert_dir p s ++ "_" ++ s ++ ext ≠ p ++ FINAL_CONFIG_SUFFIX := by
  intro h
  have hd := congrArg String.data h
  simp only [insert_dir, FINAL_CONFIG_SUFFIX, data_append, List.append_assoc] at hd
  have hc := List.append_cancel_left hd
  simp only [List.cons_append, List.nil_append] at hc
  injection hc with hch _
  exact absurd hch (by decide)

theorem inPathOf_ne_final (p s : String) :
    inPathOf p s ≠ p ++ FINAL_CONFIG_SUFFIX :=
  stagePath_ne_final p s ".incfg"

theorem outPathOf_ne_final (p s : String) :
    outPathOf p s ≠ p ++ FINAL_CONFIG_SUFFIX :=
  stagePath_ne_final p s ".outcfg"

theorem check_required_single {kw : Kwargs} {stage : String}
    (h : hasKey kw stage = true) : check_required kw [stage] = none := by
  simp [check_required, h]

theorem check_required_three {kw : Kwargs}
    (h1 : hasKey kw "pipeline" = true) (h2 : hasKey kw "stages" = true)
    (h3 : hasKey kw "global" = true) :
    check_required kw ["pipeline", "stages", "global"] = none := by
  simp [check_required, h1, h2, h3]

/-! ### Step lemmas for the stage loop -/

/-- Once the countdown of requested stages reaches zero, the loop stops
without touching the next descriptor: no settings check, no directory
creation, no checkpoint access, no error. -/
theorem runLoop_zero (R : Runners) (kw : Kwargs) (stages : List String)
    (pref : String) (l : List StageDesc) (gs : CfgDict) (fs : FS)
    (eff : List Effect) :
    runLoop R kw stages pref l 0 gs fs eff = ⟨fs, eff, Outcome.ok gs⟩ := by
  cases l with
  | nil => rfl
  | cons d rest => obtain ⟨stage, runner, keyPref⟩ := d; simp [runLoop]

/-- One executed-stage iteration of the loop. -/
theorem runLoop_exec_step (R : Runners) (kw : Kwargs) (stages : List String)
    (pref stage : String) (runner : CfgDict → CfgDict)
    (keyPref : Option String) (rest : List StageDesc) (n : Nat)
    (gs : CfgDict) (fs : FS) (eff : List Effect) (tools dbs scfg : CfgDict)
    (hn : n ≠ 0)
    (hmem : stages.contains stage = true)
    (ht : alookup kw "tools" = some (TopVal.sec tools))
    (hd : alookup kw "databases" = some (TopVal.sec dbs))
    (hs : alookup kw stage = some (TopVal.sec scfg)) :
    runLoop R kw stages pref ((stage, runner, keyPref) :: rest) n gs fs eff
      = runLoop R kw stages pref rest (n - 1)
          (gs ++ applyKeyPref keyPref
            (runner (layeredInput tools dbs scfg gs (insert_dir pref stage))))
          (fsWrite
            (fsWrite fs (inPathOf pref stage)
              (layeredInput tools dbs scfg gs (insert_dir pref stage)))
            (outPathOf pref stage)
            (applyKeyPref keyPref
              (runner (layeredInput tools dbs scfg gs (insert_dir pref stage)))))
          (eff ++
            [Effect.mkdirFor (insert_dir pref stage),
             Effect.writeFile (inPathOf pref stage)
               (layeredInput tools dbs scfg gs (insert_dir pref stage)),
             Effect.writeFile (outPathOf pref stage)
               (applyKeyPref keyPref
                 (runner (layeredInput tools dbs scfg gs (insert_dir pref stage))))]) := by
  have hk : hasKey kw stage = true := by simp [hasKey, hs]
  have hmem' : stage ∈ stages := by simpa using hmem
  simp [runLoop, hn, hmem', getSec, ht, hd, hs, check_required_single hk, fsWrite]

/-- One resumed-stage (skip) iteration of the loop, fully case-split on
the checkpoint checks. -/
theorem runLoop_skip_step (R : Runners) (kw : Kwargs) (stages : List String)
    (pref stage : String) (runner : CfgDict → CfgDict)
    (keyPref : Option String) (rest : List StageDesc) (n : Nat)
    (gs : CfgDict) (fs : FS) (eff : List Effect)
    (hn : n ≠ 0)
    (hmem : stages.contains stage = false)
    (hk : hasKey kw stage = true) :
    runLoop R kw stages pref ((stage, runner, keyPref) :: rest) n gs fs eff
      = match verify_resources fs (skipMsg stage) [SVal.str (outPathOf pref stage)] with
        | some e => ⟨fs, eff ++ [Effect.mkdirFor (insert_dir pref stage)], Outcome.err e⟩
        | none =>
          match readConfig fs (outPathOf pref stage) with
          | none => ⟨fs, eff ++ [Effect.mkdirFor (insert_dir pref stage)],
                     Outcome.err (Err.parseError (outPathOf pref stage))⟩
          | some outcfg =>
            match verify_resources fs (filesMsg stage) (outputFiles outcfg) with
            | some e => ⟨fs, eff ++ [Effect.mkdirFor (insert_dir pref stage)],
                         Outcome.err e⟩
            | none => runLoop R kw stages pref rest n (gs ++ outcfg) fs
                        (eff ++ [Effect.mkdirFor (insert_dir pref stage)]) := by
  have hmem' : stage ∉ stages := by simpa using hmem
  simp [runLoop, hn, hmem', check_required_single hk]

/-- Reduction of `execute` to the stage loop once all upfront checks
pass: pipeline registered, stages a list, global section with a string
prefix. -/
theorem execute_unfold (R : Runners) (kw : Kwargs) (fs : FS) (name : String)
    (pl : List StageDesc) (stagesL : List String) (g : CfgDict) (p : String)
    (hpipe : alookup kw "pipeline" = some (TopVal.str name))
    (hpl : plookup R name = some pl)
    (hst : alookup kw "stages" = some (TopVal.strList stagesL))
    (hg : alookup kw "global" = some (TopVal.sec g))
    (hp : alookup g "prefix" = some (SVal.str p)) :
    execute R kw fs
      = finalize p
          (runLoop R kw stagesL p pl stagesL.length g fs [Effect.mkdirFor p]) := by
  have hk1 : hasKey kw "pipeline" = true := by simp [hasKey, hpipe]
  have hk2 : hasKey kw "stages" = true := by simp [hasKey, hst]
  have hk3 : hasKey kw "global" = true := by simp [hasKey, hg]
  simp [execute, check_required_three hk1 hk2 hk3, hpipe, pipelineFor, hpl,
    hst, getSec, hg, hp]

/-- The stage loop never writes the final-record path of its own run
prefix: all its writes are per-stage checkpoint records. -/
theorem runLoop_noFinalWrite (R : Runners) (kw : Kwargs) (stages : List String)
    (pref : String) :
    ∀ (l : List StageDesc) (n : Nat) (gs : CfgDict) (fs : FS)
      (eff : List Effect),
      (∀ d, Effect.writeFile (pref ++ FINAL_CONFIG_SUFFIX) d ∉ eff) →
      ∀ d, Effect.writeFile (pref ++ FINAL_CONFIG_SUFFIX) d ∉
        (runLoop R kw stages pref l n gs fs eff).effects
  | [], n, gs, fs, eff, h, d => by simpa [runLoop] using h d
  | (stage, runner, keyPref) :: rest, n, gs, fs, eff, h, d => by
    have hmk : ∀ d2, Effect.writeFile (pref ++ FINAL_CONFIG_SUFFIX) d2 ∉
        eff ++ [Effect.mkdirFor (insert_dir pref stage)] := by
      intro d2 hm
      rcases List.mem_append.1 hm with h1 | h1
      · exact h d2 h1
      · simp at h1
    by_cases hn : n = 0
    · subst hn; rw [runLoop_zero]; exact h d
    · simp only [runLoop, if_neg hn]
      split
      · exact h d
      · split
        · split
          · exact hmk d
          · split
            · exact hmk d
            · split
              · exact hmk d
              · apply runLoop_noFinalWrite
                intro d2 hm
                rcases List.mem_append.1 hm with h1 | h1
                · rcases List.mem_append.1 h1 with h2 | h2
                  · rcases List.mem_append.1 h2 with h3 | h3
                    · exact h d2 h3
                    · simp at h3
                  · simp only [List.mem_singleton] at h2
                    injection h2 with hp _
                    exact inPathOf_ne_final pref stage hp.symm
                · simp only [List.mem_singleton] at h1
                  injection h1 with hp _
                  exact outPathOf_ne_final pref stage hp.symm
        · split
          · exact hmk d
          · split
            · exact hmk d
            · split
              · exact hmk d
              · exact runLoop_noFinalWrite R kw stages pref rest n _ fs _ hmk d

/-! ### Claims -/

/-- C1 (amended): with `stages = None`, `execute` fails with
`InvalidParameter` before creating any directory or writing any record;
with `stages = []`, however, the check is not triggered: `execute`
succeeds, runs zero stages, creates only the base prefix directory and
still writes the final record. -/
theorem C1_empty_or_none_stages (R : Runners) (kw : Kwargs) (fs : FS)
    (name : String) (pl : List StageDesc) (g : CfgDict) (p : String)
    (hpipe : alookup kw "pipeline" = some (TopVal.str name))
    (hpl : plookup R name = some pl)
    (hg : alookup kw "global" = some (TopVal.sec g)) :
    (alookup kw "stages" = some TopVal.noneV →
      execute R kw fs = ⟨fs, [], Outcome.err (Err.invalidParameter noStagesMsg)⟩)
    ∧ (alookup g "prefix" = some (SVal.str p) →
       alookup kw "stages" = some (TopVal.strList []) →
       execute R kw fs
         = ⟨fsWrite fs (p ++ FINAL_CONFIG_SUFFIX) g,
            [Effect.mkdirFor p, Effect.writeFile (p ++ FINAL_CONFIG_SUFFIX) g],
            Outcome.ok g⟩) := by
  have hk1 : hasKey kw "pipeline" = true := by simp [hasKey, hpipe]
  have hk3 : hasKey kw "global" = true := by simp [hasKey, hg]
  constructor
  · intro hst
    have hk2 : hasKey kw "stages" = true := by simp [hasKey, hst]
    simp [execute, check_required_three hk1 hk2 hk3, hpipe, pipelineFor, hpl, hst]
  · intro hp hst
    rw [execute_unfold R kw fs name pl [] g p hpipe hpl hst hg hp]
    simp [runLoop_zero, finalize, fsWrite]

/-- C1 witness: both halves evaluated on a concrete monomer
configuration. -/
theorem C1_empty_or_none_stages_witness :
    execute R0 (kw0 TopVal.noneV) []
      = ⟨[], [], Outcome.err (Err.invalidParameter noStagesMsg)⟩
    ∧ execute R0 (kw0 (TopVal.strList [])) []
      = ⟨fsWrite [] ("out/run" ++ FINAL_CONFIG_SUFFIX) gsec0,
         [Effect.mkdirFor "out/run",
          Effect.writeFile ("out/run" ++ FINAL_CONFIG_SUFFIX) gsec0],
         Outcome.ok gsec0⟩ := by
  constructor
  · exact (C1_empty_or_none_stages R0 (kw0 TopVal.noneV) [] "protein_monomer"
      _ gsec0 "out/run" rfl rfl rfl).1 rfl
  · exact (C1_empty_or_none_stages R0 (kw0 (TopVal.strList [])) []
      "protein_monomer" _ gsec0 "out/run" rfl rfl rfl).2 rfl rfl

/-- C1 counterexample: with `stages = []` the claim's demanded
`InvalidParameter` failure does not happen — `execute` succeeds and the
final record is written. -/
theorem C1_empty_stages_succeeds :
    isInvalidParam (execute R0 (kw0 (TopVal.strList [])) []).outcome = false
    ∧ (execute R0 (kw0 (TopVal.strList [])) []).outcome = Outcome.ok gsec0
    ∧ Effect.writeFile ("out/run" ++ FINAL_CONFIG_SUFFIX) gsec0
        ∈ (execute R0 (kw0 (TopVal.strList [])) []).effects := by
  decide

/-- C2 (amended): a configuration whose `global` section lacks `prefix`
makes `execute` fail before any side effect, but with a plain `KeyError`
on `"prefix"` (an unguarded dictionary subscript), not with
`MissingParameter`: the upfront `check_required` only inspects the
top-level `pipeline`/`stages`/`global` keys. -/
theorem C2_missing_prefix_is_keyerror (R : Runners) (kw : Kwargs) (fs : FS)
    (name : String) (pl : List StageDesc) (sl : List String) (g : CfgDict)
    (hpipe : alookup kw "pipeline" = some (TopVal.str name))
    (hpl : plookup R name = some pl)
    (hst : alookup kw "stages" = some (TopVal.strList sl))
    (hg : alookup kw "global" = some (TopVal.sec g))
    (hp : alookup g "prefix" = none) :
    execute R kw fs = ⟨fs, [], Outcome.err (Err.keyError "prefix")⟩ := by
  have hk1 : hasKey kw "pipeline" = true := by simp [hasKey, hpipe]
  have hk2 : hasKey kw "stages" = true := by simp [hasKey, hst]
  have hk3 : hasKey kw "global" = true := by simp [hasKey, hg]
  simp [execute, check_required_three hk1 hk2 hk3, hpipe, pipelineFor, hpl,
    hst, getSec, hg, hp]

/-- C2 witness: the amended behaviour evaluated on a concrete
configuration lacking `global.prefix`. -/
theorem C2_missing_prefix_is_keyerror_witness :
    execute R0 kwNoPref [] = ⟨[], [], Outcome.err (Err.keyError "prefix")⟩ :=
  C2_missing_prefix_is_keyerror R0 kwNoPref [] "protein_monomer" _ ["align"]
    [("theta", SVal.int 8)] rfl rfl rfl rfl rfl

/-- C2 counterexample: on a concrete configuration whose `global`
section lacks `prefix`, the failure is a `KeyError`, not the
`MissingParameter` the claim asserts. -/
theorem C2_missing_prefix_not_missingparameter :
    (execute R0 kwNoPref []).outcome = Outcome.err (Err.keyError "prefix")
    ∧ isMissingParam (execute R0 kwNoPref []).outcome = false := by
  decide

/-- C9 (confirmed): a configuration naming an unregistered pipeline
fails with `InvalidParameter` whose message lists every registered
pipeline name, before any directory creation or stage processing
(empty effect trace, filesystem untouched). -/
theorem C9_unknown_pipeline (R : Runners) (kw : Kwargs) (fs : FS)
    (name : String)
    (hpipe : alookup kw "pipeline" = some (TopVal.str name))
    (hpl : plookup R name = none)
    (h2 : hasKey kw "stages" = true)
    (h3 : hasKey kw "global" = true) :
    execute R kw fs
      = ⟨fs, [], Outcome.err (Err.invalidParameter (invalidPipelineMsg R))⟩
    ∧ invalidPipelineMsg R
      = "Not a valid pipeline selection. Valid choices are:\n" ++
          "protein_monomer, protein_complex" := by
  have hk1 : hasKey kw "pipeline" = true := by simp [hasKey, hpipe]
  constructor
  · simp [execute, check_required_three hk1 h2 h3, hpipe, pipelineFor, hpl]
  · rfl

/-- C9 witness: the unknown-pipeline failure evaluated on a concrete
configuration. -/
theorem C9_unknown_pipeline_witness :
    execute R0 kwBadPipe []
      = ⟨[], [], Outcome.err (Err.invalidParameter (invalidPipelineMsg R0))⟩ :=
  (C9_unknown_pipeline R0 kwBadPipe [] "protein_trimer" rfl rfl rfl rfl).1

/-- Lookup semantics of the layered stage input configuration: `prefix`
is always the forced stage directory, and every other key resolves
through the priority cascade global state, then stage settings, then
databases, then tools. -/
theorem layeredInput_lookup (tools dbs scfg gs : CfgDict) (dir : String) :
    alookup (layeredInput tools dbs scfg gs dir) "prefix"
      = some (SVal.str dir)
    ∧ ∀ k, k ≠ "prefix" →
        alookup (layeredInput tools dbs scfg gs dir) k
          = match alookup gs k with
            | some v => some v
            | none =>
              match alookup scfg k with
              | some v => some v
              | none =>
                match alookup dbs k with
                | some v => some v
                | none => alookup tools k := by
  unfold layeredInput
  constructor
  · exact alookup_append_some _ (by simp [alookup])
  · intro k hk
    have h0 : alookup [("prefix", SVal.str dir)] k = none := by
      simp [alookup, Ne.symm hk]
    rw [alookup_append_none _ h0]
    cases hgs : alookup gs k with
    | some v => rw [alookup_append_some _ hgs]
    | none =>
      rw [alookup_append_none _ hgs]
      cases hsc : alookup scfg k with
      | some v => rw [alookup_append_some _ hsc]
      | none =>
        rw [alookup_append_none _ hsc]
        cases hdb : alookup dbs k with
        | some v => rw [alookup_append_some _ hdb]
        | none => rw [alookup_append_none _ hdb]

/-- A successfully parsed config record passes resource verification. -/
theorem resourceOk_of_readConfig {fs : FS} {p : String} {oc : CfgDict}
    (h : readConfig fs p = some oc) : resourceOk fs p = true := by
  unfold readConfig at h
  unfold resourceOk
  cases hl : fsLookup fs p with
  | none => rw [hl] at h; exact Option.noConfusion h
  | some e =>
    rw [hl] at h
    cases e with
    | emptyFile => exact Option.noConfusion h
    | dataFile => exact Option.noConfusion h
    | configFile d => rfl

/-- C3 (confirmed): an executed stage's input configuration is exactly
the layered merge, low to high priority, of tools, databases, the
stage's settings section, the current global state, and a forced
`prefix` entry set to the stage's own directory; on key collision the
global state overrides stage-local settings, and the `prefix` the
runner sees is always the stage directory. The first conjunct shows the
loop persists this very dictionary to the stage input record and feeds
it to the runner; the others give its collision semantics. -/
theorem C3_stage_input_configuration (R : Runners) (kw : Kwargs)
    (stages : List String) (pref stage : String)
    (runner : CfgDict → CfgDict) (keyPref : Option String)
    (rest : List StageDesc) (n : Nat) (gs : CfgDict) (fs : FS)
    (eff : List Effect) (tools dbs scfg : CfgDict)
    (hn : n ≠ 0)
    (hmem : stages.contains stage = true)
    (ht : alookup kw "tools" = some (TopVal.sec tools))
    (hd : alookup kw "databases" = some (TopVal.sec dbs))
    (hs : alookup kw stage = some (TopVal.sec scfg)) :
    (runLoop R kw stages pref ((stage, runner, keyPref) :: rest) n gs fs eff
      = runLoop R kw stages pref rest (n - 1)
          (gs ++ applyKeyPref keyPref
            (runner (layeredInput tools dbs scfg gs (insert_dir pref stage))))
          (fsWrite
            (fsWrite fs (inPathOf pref stage)
              (layeredInput tools dbs scfg gs (insert_dir pref stage)))
            (outPathOf pref stage)
            (applyKeyPref keyPref
              (runner (layeredInput tools dbs scfg gs (insert_dir pref stage)))))
          (eff ++
            [Effect.mkdirFor (insert_dir pref stage),
             Effect.writeFile (inPathOf pref stage)
               (layeredInput tools dbs scfg gs (insert_dir pref stage)),
             Effect.writeFile (outPathOf pref stage)
               (applyKeyPref keyPref
                 (runner (layeredInput tools dbs scfg gs (insert_dir pref stage))))]))
    ∧ alookup (layeredInput tools dbs scfg gs (insert_dir pref stage)) "prefix"
        = some (SVal.str (insert_dir pref stage))
    ∧ (∀ k, k ≠ "prefix" →
        alookup (layeredInput tools dbs scfg gs (insert_dir pref stage)) k
          = match alookup gs k with
            | some v => some v
            | none =>
              match alookup scfg k with
              | some v => some v
              | none =>
                match alookup dbs k with
                | some v => some v
                | none => alookup tools k) :=
  ⟨runLoop_exec_step R kw stages pref stage runner keyPref rest n gs fs eff
      tools dbs scfg hn hmem ht hd hs,
   (layeredInput_lookup tools dbs scfg gs (insert_dir pref stage)).1,
   (layeredInput_lookup tools dbs scfg gs (insert_dir pref stage)).2⟩

/-- C3 witness: concrete evaluation showing global state overriding the
stage section's `seqid`, the forced stage-directory `prefix`, and a
tools key surviving at lowest priority. -/
theorem C3_stage_input_configuration_witness :
    alookup (layeredInput tools0 dbs0 [("seqid", SVal.str "Q")] gsC3
        (insert_dir "out/run" "align")) "prefix"
      = some (SVal.str "out/run/align")
    ∧ alookup (layeredInput tools0 dbs0 [("seqid", SVal.str "Q")] gsC3
        (insert_dir "out/run" "align")) "seqid"
      = some (SVal.str "G")
    ∧ alookup (layeredInput tools0 dbs0 [("seqid", SVal.str "Q")] gsC3
        (insert_dir "out/run" "align")) "plmc"
      = some (SVal.str "bin/plmc") := by
  have h := C3_stage_input_configuration R0 (kw0 (TopVal.strList ["align"]))
    ["align"] "out/run" "align" R0.apRun none [] 1 gsC3 [] [] tools0 dbs0
    [("seqid", SVal.str "Q")] (by decide) (by decide) rfl rfl rfl
  exact ⟨h.2.1, h.2.2 "seqid" (by decide), h.2.2 "plmc" (by decide)⟩

/-- C5 (confirmed): when a stage without a key prefix is executed on top
of an accumulated global state that already holds one of the keys the
stage returns, the merged state after the stage holds the stage's value
for that key — each merge is later-wins on top of the accumulated
state. -/
theorem C5_later_stage_wins (R : Runners) (kw : Kwargs)
    (stages : List String) (pref stage : String)
    (runner : CfgDict → CfgDict) (n : Nat) (gs : CfgDict) (fs : FS)
    (eff : List Effect) (tools dbs scfg : CfgDict) (k : String)
    (v1 v2 : SVal)
    (hn : n ≠ 0)
    (hmem : stages.contains stage = true)
    (ht : alookup kw "tools" = some (TopVal.sec tools))
    (hd : alookup kw "databases" = some (TopVal.sec dbs))
    (hs : alookup kw stage = some (TopVal.sec scfg))
    (hk1 : alookup gs k = some v1)
    (hk2 : alookup
        (runner (layeredInput tools dbs scfg gs (insert_dir pref stage))) k
      = some v2) :
    (runLoop R kw stages pref [(stage, runner, none)] n gs fs eff).outcome
      = Outcome.ok
          (gs ++ runner (layeredInput tools dbs scfg gs (insert_dir pref stage)))
    ∧ alookup
        (gs ++ runner (layeredInput tools dbs scfg gs (insert_dir pref stage))) k
      = some v2 := by
  constructor
  · rw [runLoop_exec_step R kw stages pref stage runner none [] n gs fs eff
      tools dbs scfg hn hmem ht hd hs]
    simp [runLoop, applyKeyPref]
  · exact alookup_append_some gs hk2

/-- C5 witness: concrete evaluation in which the stage's fresh
`alignment_file` value shadows the accumulated one. -/
theorem C5_later_stage_wins_witness :
    (runLoop R0 (kw0 (TopVal.strList ["align"])) ["align"] "out/run"
        [("align", R0.apRun, none)] 1 gsC5 [] []).outcome
      = Outcome.ok
          (gsC5 ++ R0.apRun (layeredInput tools0 dbs0 [("seqid", SVal.str "Q")]
            gsC5 (insert_dir "out/run" "align")))
    ∧ alookup
        (gsC5 ++ R0.apRun (layeredInput tools0 dbs0 [("seqid", SVal.str "Q")]
          gsC5 (insert_dir "out/run" "align"))) "alignment_file"
      = some (SVal.str "af") :=
  C5_later_stage_wins R0 (kw0 (TopVal.strList ["align"])) ["align"] "out/run"
    "align" R0.apRun 1 gsC5 [] [] tools0 dbs0 [("seqid", SVal.str "Q")]
    "alignment_file" (SVal.str "old") (SVal.str "af")
    (by decide) (by decide) rfl rfl rfl rfl rfl

/-- C6 (confirmed): a stage reached by the loop but not in the
requested set fails with `MissingResource` naming the stage when its
persisted output record is missing or empty; when the record parses,
it fails with `MissingResource` naming the stage if any value keyed
with the `_file` suffix points to a missing or empty path; only when
all checks pass is the recovered output merged into the global
state. -/
theorem C6_skip_resume_checks (R : Runners) (kw : Kwargs)
    (stages : List String) (pref stage : String)
    (runner : CfgDict → CfgDict) (keyPref : Option String)
    (rest : List StageDesc) (n : Nat) (gs : CfgDict) (fs : FS)
    (eff : List Effect)
    (hn : n ≠ 0)
    (hmem : stages.contains stage = false)
    (hk : hasKey kw stage = true) :
    (resourceOk fs (outPathOf pref stage) = false →
      runLoop R kw stages pref ((stage, runner, keyPref) :: rest) n gs fs eff
        = ⟨fs, eff ++ [Effect.mkdirFor (insert_dir pref stage)],
           Outcome.err (Err.missingResource (skipMsg stage))⟩)
    ∧ ∀ oc, readConfig fs (outPathOf pref stage) = some oc →
        ((outputFiles oc).all (svalOk fs) = false →
          runLoop R kw stages pref ((stage, runner, keyPref) :: rest) n gs fs eff
            = ⟨fs, eff ++ [Effect.mkdirFor (insert_dir pref stage)],
               Outcome.err (Err.missingResource (filesMsg stage))⟩)
        ∧ ((outputFiles oc).all (svalOk fs) = true →
          runLoop R kw stages pref ((stage, runner, keyPref) :: rest) n gs fs eff
            = runLoop R kw stages pref rest n (gs ++ oc) fs
                (eff ++ [Effect.mkdirFor (insert_dir pref stage)])) := by
  constructor
  · intro hres
    rw [runLoop_skip_step R kw stages pref stage runner keyPref rest n gs fs
      eff hn hmem hk]
    simp [verify_resources, svalOk, hres]
  · intro oc hread
    have hres : resourceOk fs (outPathOf pref stage) = true :=
      resourceOk_of_readConfig hread
    constructor
    · intro hfail
      rw [runLoop_skip_step R kw stages pref stage runner keyPref rest n gs fs
        eff hn hmem hk]
      simp [verify_resources, svalOk, hres, hread, hfail]
    · intro hokf
      rw [runLoop_skip_step R kw stages pref stage runner keyPref rest n gs fs
        eff hn hmem hk]
      simp [verify_resources, svalOk, hres, hread, hokf]

/-- C6 witness: concrete evaluations of the three skip-path cases —
missing record, record with missing output file, and successful
resume. -/
theorem C6_skip_resume_checks_witness :
    runLoop R0 (kw0 (TopVal.strList ["couplings"])) ["couplings"] "out/run"
        [("align", R0.apRun, none)] 1 gsec0 [] []
      = ⟨[], [Effect.mkdirFor (insert_dir "out/run" "align")],
         Outcome.err (Err.missingResource (skipMsg "align"))⟩
    ∧ runLoop R0 (kw0 (TopVal.strList ["couplings"])) ["couplings"] "out/run"
        [("align", R0.apRun, none)] 1 gsec0 fsC6bad []
      = ⟨fsC6bad, [Effect.mkdirFor (insert_dir "out/run" "align")],
         Outcome.err (Err.missingResource (filesMsg "align"))⟩
    ∧ runLoop R0 (kw0 (TopVal.strList ["couplings"])) ["couplings"] "out/run"
        [("align", R0.apRun, none)] 1 gsec0 fsC6ok []
      = runLoop R0 (kw0 (TopVal.strList ["couplings"])) ["couplings"] "out/run"
          [] 1 (gsec0 ++ [("alignment_file", SVal.str "af")]) fsC6ok
          [Effect.mkdirFor (insert_dir "out/run" "align")] := by
  refine ⟨?_, ?_, ?_⟩
  · exact (C6_skip_resume_checks R0 (kw0 (TopVal.strList ["couplings"]))
      ["couplings"] "out/run" "align" R0.apRun none [] 1 gsec0 [] []
      (by decide) (by decide) (by decide)).1 (by decide)
  · exact ((C6_skip_resume_checks R0 (kw0 (TopVal.strList ["couplings"]))
      ["couplings"] "out/run" "align" R0.apRun none [] 1 gsec0 fsC6bad []
      (by decide) (by decide) (by decide)).2
      [("alignment_file", SVal.str "gone")] (by decide)).1 (by decide)
  · exact ((C6_skip_resume_checks R0 (kw0 (TopVal.strList ["couplings"]))
      ["couplings"] "out/run" "align" R0.apRun none [] 1 gsec0 fsC6ok []
      (by decide) (by decide) (by decide)).2
      [("alignment_file", SVal.str "af")] (by decide)).2 (by decide)

/-- C7 (confirmed): the countdown starts at the number of requested
stages, is decremented only by freshly executed stages, and stops the
loop before any further descriptor is touched once it reaches zero.
First conjunct: at countdown zero the loop returns immediately — no
settings check, no directory creation, no checkpoint access, for any
remaining descriptors. Second conjunct: requesting only `align` out of
the five-stage monomer pipeline succeeds, executes `align`, and the
trailing `couplings` directory is never created. Third conjunct:
resuming `align` from disk does not consume the budget of one requested
stage — `couplings` is still freshly executed afterwards. -/
theorem C7_countdown_semantics (R : Runners) (kw : Kwargs)
    (stages : List String) (pref : String) (l : List StageDesc)
    (gs : CfgDict) (fs : FS) (eff : List Effect) :
    runLoop R kw stages pref l 0 gs fs eff = ⟨fs, eff, Outcome.ok gs⟩
    ∧ ((execute R0 (kw0 (TopVal.strList ["align"])) []).outcome
         = Outcome.ok (gsec0 ++ [("alignment_file", SVal.str "af")])
       ∧ Effect.mkdirFor (insert_dir "out/run" "couplings")
           ∉ (execute R0 (kw0 (TopVal.strList ["align"])) []).effects
       ∧ Effect.writeFile (outPathOf "out/run" "align")
             [("alignment_file", SVal.str "af")]
           ∈ (execute R0 (kw0 (TopVal.strList ["align"])) []).effects)
    ∧ ((execute R0 (kw0 (TopVal.strList ["couplings"])) fsC6ok).outcome
         = Outcome.ok ((gsec0 ++ [("alignment_file", SVal.str "af")])
             ++ [("model_file", SVal.str "mf")])
       ∧ Effect.writeFile (outPathOf "out/run" "couplings")
             [("model_file", SVal.str "mf")]
           ∈ (execute R0 (kw0 (TopVal.strList ["couplings"])) fsC6ok).effects) :=
  ⟨runLoop_zero R kw stages pref l gs fs eff, by decide, by decide⟩

/-- C10 (confirmed): once the loop reaches a stage that is in the
requested set, `execute` needs top-level `tools` and `databases`
mappings; the upfront `check_required` only covers
`pipeline`/`stages`/`global`, so their absence surfaces as a plain
`KeyError` from the unguarded subscripts in the layered-merge
expression, after the run and stage directories were already
created. -/
theorem C10_tools_databases_required (R : Runners) (kw : Kwargs) (fs : FS)
    (name stage : String) (runner : CfgDict → CfgDict)
    (keyPref : Option String) (restPl : List StageDesc)
    (stagesL : List String) (g : CfgDict) (p : String)
    (hpipe : alookup kw "pipeline" = some (TopVal.str name))
    (hpl : plookup R name = some ((stage, runner, keyPref) :: restPl))
    (hst : alookup kw "stages" = some (TopVal.strList stagesL))
    (hg : alookup kw "global" = some (TopVal.sec g))
    (hp : alookup g "prefix" = some (SVal.str p))
    (hmem : stagesL.contains stage = true)
    (hsec : hasKey kw stage = true) :
    (alookup kw "tools" = none →
      execute R kw fs
        = ⟨fs, [Effect.mkdirFor p, Effect.mkdirFor (insert_dir p stage)],
           Outcome.err (Err.keyError "tools")⟩)
    ∧ (∀ tools, alookup kw "tools" = some (TopVal.sec tools) →
        alookup kw "databases" = none →
        execute R kw fs
          = ⟨fs, [Effect.mkdirFor p, Effect.mkdirFor (insert_dir p stage)],
             Outcome.err (Err.keyError "databases")⟩) := by
  have hmem' : stage ∈ stagesL := by simpa using hmem
  have hn : ¬ stagesL.length = 0 := by
    intro h0
    rw [List.length_eq_zero] at h0
    subst h0
    simp at hmem'
  rw [execute_unfold R kw fs name ((stage, runner, keyPref) :: restPl) stagesL
    g p hpipe hpl hst hg hp]
  constructor
  · intro htools
    simp [runLoop, hn, hmem', check_required_single hsec, getSec, htools,
      finalize]
  · intro tools htools hdbs
    simp [runLoop, hn, hmem', check_required_single hsec, getSec, htools,
      hdbs, finalize]

/-- C10 witness: concrete configurations with the `tools` respectively
`databases` mapping absent. -/
theorem C10_tools_databases_required_witness :
    execute R0 kwNoTools []
      = ⟨[], [Effect.mkdirFor "out/run",
              Effect.mkdirFor (insert_dir "out/run" "align")],
         Outcome.err (Err.keyError "tools")⟩
    ∧ execute R0 kwNoDbs []
      = ⟨[], [Effect.mkdirFor "out/run",
              Effect.mkdirFor (insert_dir "out/run" "align")],
         Outcome.err (Err.keyError "databases")⟩ := by
  constructor
  · exact (C10_tools_databases_required R0 kwNoTools [] "protein_monomer"
      "align" R0.apRun none _ ["align"] gsec0 "out/run"
      rfl rfl rfl rfl rfl rfl rfl).1 rfl
  · exact (C10_tools_databases_required R0 kwNoDbs [] "protein_monomer"
      "align" R0.apRun none _ ["align"] gsec0 "out/run"
      rfl rfl rfl rfl rfl rfl rfl).2 tools0 rfl rfl

/-- C4 (confirmed): in the complex pipeline, running the alignment
stage twice with key prefixes `first_` and `second_` isolates the two
outputs: the prefixes are applied to every output key before each
output record is persisted and before merging, the final global state
carries `first_<k>` and `second_<k>` for every raw key `k` the
respective invocation returned, and neither instance's entries shadow
the other's even when both invocations return identical raw keys. -/
theorem C4_key_isolation (R : Runners) (T D S1 S2 : CfgDict) (p : String)
    (fs : FS) :
    (execute R (kwC4 T D S1 S2 p) fs).outcome
      = Outcome.ok (finalC4 R T D S1 S2 p)
    ∧ Effect.writeFile (outPathOf p "align_1")
        (applyKeyPref (some "first_") (outC4first R T D S1 p))
        ∈ (execute R (kwC4 T D S1 S2 p) fs).effects
    ∧ Effect.writeFile (outPathOf p "align_2")
        (applyKeyPref (some "second_") (outC4second R T D S1 S2 p))
        ∈ (execute R (kwC4 T D S1 S2 p) fs).effects
    ∧ (∀ k v, alookup (outC4first R T D S1 p) k = some v →
        alookup (finalC4 R T D S1 S2 p) ("first_" ++ k) = some v)
    ∧ (∀ k v, alookup (outC4second R T D S1 S2 p) k = some v →
        alookup (finalC4 R T D S1 S2 p) ("second_" ++ k) = some v) := by
  have hu := execute_unfold R (kwC4 T D S1 S2 p) fs "protein_complex"
    [("align_1", R.apRun, some "first_"), ("align_2", R.apRun, some "second_"),
     ("concatenate", R.ppRun, none), ("couplings", R.cpRun, none)]
    ["align_1", "align_2"] (gC4 p) p rfl rfl rfl rfl rfl
  rw [hu,
    runLoop_exec_step R (kwC4 T D S1 S2 p) ["align_1", "align_2"] p "align_1"
      R.apRun (some "first_")
      [("align_2", R.apRun, some "second_"), ("concatenate", R.ppRun, none),
       ("couplings", R.cpRun, none)]
      (["align_1", "align_2"] : List String).length (gC4 p) fs
      [Effect.mkdirFor p] T D S1 (by decide) (by decide) rfl rfl rfl,
    runLoop_exec_step R (kwC4 T D S1 S2 p) ["align_1", "align_2"] p "align_2"
      R.apRun (some "second_")
      [("concatenate", R.ppRun, none), ("couplings", R.cpRun, none)]
      ((["align_1", "align_2"] : List String).length - 1) _ _ _ T D S2
      (by decide) (by decide) rfl rfl rfl,
    show (["align_1", "align_2"] : List String).length - 1 - 1 = 0 from rfl,
    runLoop_zero]
  simp only [finalize]
  refine ⟨rfl, ?_, ?_, ?_, ?_⟩
  · simp [outC4first, gC4, List.mem_append]
  · simp [outC4second, gs1C4, outC4first, gC4, List.mem_append]
  · intro k v h
    unfold finalC4 gs1C4
    simp only [applyKeyPref]
    rw [alookup_append_none _
      (alookup_mapPre_none "second_" (outC4second R T D S1 S2 p)
        (fun x => secondPre_ne_firstPre x k))]
    exact alookup_append_some _ ((alookup_mapPre "first_" _ k).trans
      (by simpa [outC4first] using h))
  · intro k v h
    unfold finalC4
    simp only [applyKeyPref]
    exact alookup_append_some _ ((alookup_mapPre "second_" _ k).trans h)

/-- Case analysis of `execute`: either it aborts before the loop with an
empty effect trace, or it reduces to `finalize` of the stage loop. -/
theorem execute_split (R : Runners) (kw : Kwargs) (fs : FS) (g : CfgDict)
    (p : String)
    (hg : alookup kw "global" = some (TopVal.sec g))
    (hp : alookup g "prefix" = some (SVal.str p)) :
    (∃ e, execute R kw fs = ⟨fs, [], Outcome.err e⟩)
    ∨ (∃ sl pl, execute R kw fs
        = finalize p
            (runLoop R kw sl p pl sl.length g fs [Effect.mkdirFor p])) := by
  have hgs : getSec kw "global" = Except.ok g := by simp [getSec, hg]
  unfold execute
  split
  · exact Or.inl ⟨_, rfl⟩
  · split
    · exact Or.inl ⟨_, rfl⟩
    · split
      · exact Or.inl ⟨_, rfl⟩
      · split
        · exact Or.inl ⟨_, rfl⟩
        · exact Or.inl ⟨_, rfl⟩
        · simp only [hgs, hp]
          exact Or.inr ⟨_, _, rfl⟩
        · exact Or.inl ⟨_, rfl⟩

/-- C8 (confirmed): the final merged-state record at
`prefix + FINAL_CONFIG_SUFFIX` is written exactly when the stage loop
finishes without an error — unconditionally after the loop, even when
zero stages were freshly executed; and never when the run aborts, in
which case the effect trace contains no write to the final-record path
(prior per-stage checkpoint writes are left as they are). -/
theorem C8_final_record (R : Runners) (kw : Kwargs) (fs : FS) (g : CfgDict)
    (p : String)
    (hg : alookup kw "global" = some (TopVal.sec g))
    (hp : alookup g "prefix" = some (SVal.str p)) :
    (∀ gsf, (execute R kw fs).outcome = Outcome.ok gsf →
      Effect.writeFile (p ++ FINAL_CONFIG_SUFFIX) gsf
          ∈ (execute R kw fs).effects
        ∧ fsLookup (execute R kw fs).fs (p ++ FINAL_CONFIG_SUFFIX)
          = some (Entry.configFile gsf))
    ∧ (∀ e, (execute R kw fs).outcome = Outcome.err e →
        ∀ d, Effect.writeFile (p ++ FINAL_CONFIG_SUFFIX) d
          ∉ (execute R kw fs).effects) := by
  rcases execute_split R kw fs g p hg hp with ⟨e0, heq⟩ | ⟨sl, pl, heq⟩
  · rw [heq]
    constructor
    · intro gsf hok
      exact absurd hok (by simp)
    · intro e1 _ d hm
      simp at hm
  · rw [heq]
    cases hor : (runLoop R kw sl p pl sl.length g fs [Effect.mkdirFor p]).outcome with
    | ok gsf0 =>
      have hfin : finalize p (runLoop R kw sl p pl sl.length g fs [Effect.mkdirFor p])
          = ⟨fsWrite (runLoop R kw sl p pl sl.length g fs [Effect.mkdirFor p]).fs
               (p ++ FINAL_CONFIG_SUFFIX) gsf0,
             (runLoop R kw sl p pl sl.length g fs [Effect.mkdirFor p]).effects
               ++ [Effect.writeFile (p ++ FINAL_CONFIG_SUFFIX) gsf0],
             Outcome.ok gsf0⟩ := by
        unfold finalize
        rw [hor]
      rw [hfin]
      constructor
      · intro gsf hok
        have hg0 : gsf0 = gsf := by
          simpa using hok
        subst hg0
        constructor
        · simp
        · simp only [fsLookup, fsWrite]
          exact alookup_append_some _ (by simp [alookup])
      · intro e1 he1
        exact absurd he1 (by simp)
    | err e0 =>
      have hfin : finalize p (runLoop R kw sl p pl sl.length g fs [Effect.mkdirFor p])
          = runLoop R kw sl p pl sl.length g fs [Effect.mkdirFor p] := by
        unfold finalize
        rw [hor]
      rw [hfin]
      constructor
      · intro gsf hok
        rw [hor] at hok
        exact absurd hok (by simp)
      · intro e1 _ d
        exact runLoop_noFinalWrite R kw sl p pl sl.length g fs
          [Effect.mkdirFor p] (by simp) d

/-- C8 witness: on a concrete one-stage run the final record is traced;
on a concrete aborting run (missing `tools`) it is not. -/
theorem C8_final_record_witness :
    Effect.writeFile ("out/run" ++ FINAL_CONFIG_SUFFIX)
        (gsec0 ++ [("alignment_file", SVal.str "af")])
      ∈ (execute R0 (kw0 (TopVal.strList ["align"])) []).effects
    ∧ Effect.writeFile ("out/run" ++ FINAL_CONFIG_SUFFIX) gsec0
      ∉ (execute R0 kwNoTools []).effects := by
  constructor
  · exact ((C8_final_record R0 (kw0 (TopVal.strList ["align"])) [] gsec0
      "out/run" rfl rfl).1 (gsec0 ++ [("alignment_file", SVal.str "af")])
      (by decide)).1
  · exact (C8_final_record R0 kwNoTools [] gsec0 "out/run" rfl rfl).2
      (Err.keyError "tools") (by decide) gsec0

end EVP
